import Mathlib

/-!
Verification of the option-resolution engine and batch execution policy of
`app.py` (a JSON-config-driven yt-dlp batch downloader).

Shallow embedding notes.

Configuration documents (`item` and `cfg`) are Python dicts loaded from JSON.
We embed them as a record `Dict` whose fields are `Option`-typed: `none` means
the key is absent, `some v` means the key is present with value `v`.  Fields
are typed by how the program consumes them (strings, integers, booleans);
configurations carrying a JSON value of a different type (or an explicit JSON
null) are outside the model.

The source merges fields in two distinct styles, both embedded verbatim:
  - Python `or`-chains such as
      `item.get("filename_template") or cfg.get("filename_template") or D`
    which skip any *falsy* value (absent key, `None`, or empty string), and
  - `item.get(k, cfg.get(k, D))`, which takes the item value whenever the key
    is present.
`pyOr` / `pyOrD` model Python `or` restricted to the string-or-absent values
that arise here (truthiness of a string is non-emptiness).

Filesystem side effects (`Path.expanduser`, `.resolve()`, `mkdir`) are out of
scope; the output template keeps the raw configured directory joined with the
filename template by `"/"`.  The external retrieval collaborator
(`yt_dlp.YoutubeDL(...).download`) is a parameter `fetch` of the batch runner:
it receives the resolved option set and the URL and either succeeds or fails
with a message, exactly the boundary `main` catches exceptions at.
-/

/-- A configuration mapping (either one item of `items` or the global config),
with one field per key the program reads.  `none` = key absent. -/
structure Dict where
  url : Option String := none
  output_dir : Option String := none
  filename_template : Option String := none
  proxy : Option String := none
  ffmpeg_location : Option String := none
  cookies : Option String := none
  concurrent_fragments : Option Int := none
  type_ : Option String := none
  convert_to_audio : Option Bool := none
  video_format : Option String := none
  quality : Option String := none
  audio_format : Option String := none
  audio_bitrate : Option Int := none
  rate_limit : Option Int := none
  remove_sponsor_segments : Option Bool := none
  stop_on_error : Option Bool := none
deriving Repr, DecidableEq

/-- Python truthiness of a string-valued `dict.get` result:
`None` (absent) and `""` are falsy, every other string is truthy. -/
def strTruthy : Option String → Bool
  | none => false
  | some s => s ≠ ""

/-- Python `a or b` on string-or-`None` values: `a` when truthy, else `b`
(whatever `b` is). -/
def pyOr (a b : Option String) : Option String :=
  if strTruthy a then a else b

/-- Python `a or d` where `d` is a (string) literal default:
the value of `a` when truthy, else `d`. -/
def pyOrD (a : Option String) (d : String) : String :=
  match a with
  | some s => if s = "" then d else s
  | none => d

/-- Embeds `item.get("filename_template") or cfg.get("filename_template") or
"%(title)s.%(ext)s"` (app.py line 39). -/
def eff_filename_template (item cfg : Dict) : String :=
  pyOrD (pyOr item.filename_template cfg.filename_template) "%(title)s.%(ext)s"

/-- Embeds `cfg.get("output_dir", "downloads")` (app.py line 37); the
`expanduser`/`resolve` filesystem normalisation is out of scope. -/
def eff_out_dir (cfg : Dict) : String :=
  cfg.output_dir.getD "downloads"

/-- Embeds `item.get("proxy") or cfg.get("proxy")` (app.py line 42). -/
def eff_proxy (item cfg : Dict) : Option String :=
  pyOr item.proxy cfg.proxy

/-- Embeds `item.get("ffmpeg_location") or cfg.get("ffmpeg_location")` (line 43). -/
def eff_ffmpeg_location (item cfg : Dict) : Option String :=
  pyOr item.ffmpeg_location cfg.ffmpeg_location

/-- Embeds `item.get("cookies") or cfg.get("cookies")` (app.py line 44). -/
def eff_cookies (item cfg : Dict) : Option String :=
  pyOr item.cookies cfg.cookies

/-- Embeds `item.get("concurrent_fragments", cfg.get("concurrent_fragments", 5))`
(app.py line 53). -/
def eff_concurrent_fragments (item cfg : Dict) : Int :=
  item.concurrent_fragments.getD (cfg.concurrent_fragments.getD 5)

/-- Python `str.lower()`, character by character (the configuration values
here are ASCII, where Python and Unicode lower-casing agree). -/
def pyLower (s : String) : String :=
  String.mk (s.data.map Char.toLower)

/-- Embeds `(item.get("type") or "video").lower()` (app.py line 64). -/
def requestedType (item : Dict) : String :=
  pyLower (pyOrD item.type_ "video")

/-- Embeds `item.get("convert_to_audio", cfg.get("convert_to_audio", False))`
(app.py line 65). -/
def eff_convert_to_audio (item cfg : Dict) : Bool :=
  item.convert_to_audio.getD (cfg.convert_to_audio.getD false)

/-- Embeds `item.get("video_format", cfg.get("video_format", "mp4"))` (line 67). -/
def eff_video_format (item cfg : Dict) : String :=
  item.video_format.getD (cfg.video_format.getD "mp4")

/-- Embeds `item.get("quality", cfg.get("quality", "best"))` (app.py line 68). -/
def eff_quality (item cfg : Dict) : String :=
  item.quality.getD (cfg.quality.getD "best")

/-- Embeds `item.get("audio_format", cfg.get("audio_format", "mp3"))` (line 70). -/
def eff_audio_format (item cfg : Dict) : String :=
  item.audio_format.getD (cfg.audio_format.getD "mp3")

/-- Embeds `item.get("audio_bitrate", cfg.get("audio_bitrate", 192))` (line 71,
before the `str(...)` coercion). -/
def eff_audio_bitrate (item cfg : Dict) : Int :=
  item.audio_bitrate.getD (cfg.audio_bitrate.getD 192)

/-- The `str(...)` coercion applied to the effective bitrate on line 71:
Python renders the integer in decimal, as `toString` on `Int` does. -/
def audio_bitrate_str (item cfg : Dict) : String :=
  toString (eff_audio_bitrate item cfg)

/-- Embeds `item.get("rate_limit", cfg.get("rate_limit"))` guarded by
`"rate_limit" in cfg or "rate_limit" in item` (app.py lines 106-107):
the item value when the key is present there, else the global one. -/
def eff_rate_limit (item cfg : Dict) : Option Int :=
  match item.rate_limit with
  | some v => some v
  | none => cfg.rate_limit

/-- Embeds `item.get("remove_sponsor_segments", cfg.get("remove_sponsor_segments",
False))` (app.py line 110). -/
def eff_remove_sponsor_segments (item cfg : Dict) : Bool :=
  item.remove_sponsor_segments.getD (cfg.remove_sponsor_segments.getD false)

/-- Embeds `cfg.get("stop_on_error", False)` (app.py line 149). -/
def eff_stop_on_error (cfg : Dict) : Bool :=
  cfg.stop_on_error.getD false

/-- One yt-dlp postprocessor entry
`{"key": ..., "preferredcodec": ..., "preferredquality": ...}`. -/
structure PP where
  key : String
  preferredcodec : String
  preferredquality : String
deriving Repr, DecidableEq

/-- The resolved yt-dlp option set (`ydl_opts`).  Keys the program may leave
unset are `Option`-typed / default-empty.  The `progress_hooks` entry always
holds the single callback `_progress_hook`, modelled separately as
`progressHook`, so it is not repeated here as data. -/
structure YdlOpts where
  outtmpl : String
  noplaylist : Bool
  quiet : Bool
  retries : Nat
  concurrent_fragment_downloads : Int
  proxy : Option String := none
  ffmpeg_location : Option String := none
  cookiefile : Option String := none
  format : Option String := none
  postprocessors : List PP := []
  merge_output_format : Option String := none
  ratelimit : Option Int := none
  sponsorblock_mark : Option (List String) := none
deriving Repr, DecidableEq

/-- The base `ydl_opts` dict literal (app.py lines 47-54).  The
`out_dir.mkdir` side effect is out of scope; `str(out_dir /
filename_template)` becomes a `"/"` join. -/
def baseOpts (item cfg : Dict) : YdlOpts :=
  { outtmpl := eff_out_dir cfg ++ "/" ++ eff_filename_template item cfg
    noplaylist := true
    quiet := false
    retries := 10
    concurrent_fragment_downloads := eff_concurrent_fragments item cfg }

/-- Embeds `if proxy: ydl_opts["proxy"] = proxy` (app.py lines 56-57). -/
def setProxy (p : Option String) (opts : YdlOpts) : YdlOpts :=
  if strTruthy p then { opts with proxy := p } else opts

/-- Embeds `if ffmpeg_location: ydl_opts["ffmpeg_location"] = ...` (lines 58-59). -/
def setFfmpegLocation (p : Option String) (opts : YdlOpts) : YdlOpts :=
  if strTruthy p then { opts with ffmpeg_location := p } else opts

/-- Embeds `if cookiefile: ydl_opts["cookiefile"] = cookiefile` (lines 60-61). -/
def setCookiefile (p : Option String) (opts : YdlOpts) : YdlOpts :=
  if strTruthy p then { opts with cookiefile := p } else opts

/-- The `FFmpegExtractAudio` postprocessor entry built on lines 78-82 and
99-103 (identical in both branches). -/
def audioPP (item cfg : Dict) : PP :=
  { key := "FFmpegExtractAudio"
    preferredcodec := eff_audio_format item cfg
    preferredquality := audio_bitrate_str item cfg }

/-- The format-selection branch of `build_ydl_opts` (app.py lines 73-103):
audio kind sets the fixed audio selector plus the single extract-audio
postprocessor; anything else takes the video path (composite selector for the
`"best"` sentinel, verbatim pass-through otherwise, plus the merge/container
format, plus an optional trailing extract-audio step). -/
def setFormatSelection (item cfg : Dict) (opts : YdlOpts) : YdlOpts :=
  if requestedType item = "audio" then
    { opts with format := some "bestaudio/best", postprocessors := [audioPP item cfg] }
  else
    let opts :=
      if eff_quality item cfg = "best" then { opts with format := some "bv*+ba/b" }
      else { opts with format := some (eff_quality item cfg) }
    let opts := { opts with merge_output_format := some (eff_video_format item cfg) }
    if eff_convert_to_audio item cfg then
      { opts with postprocessors := opts.postprocessors ++ [audioPP item cfg] }
    else opts

/-- Embeds `if "rate_limit" in cfg or "rate_limit" in item: ydl_opts["ratelimit"] =
item.get("rate_limit", cfg.get("rate_limit"))` (app.py lines 106-107). -/
def setRateLimit (item cfg : Dict) (opts : YdlOpts) : YdlOpts :=
  if cfg.rate_limit.isSome || item.rate_limit.isSome then
    { opts with ratelimit := eff_rate_limit item cfg }
  else opts

/-- Embeds `if remove_sponsor_segments: ydl_opts["sponsorblock_mark"] = [...]`
(app.py lines 110-112). -/
def setSponsorblock (item cfg : Dict) (opts : YdlOpts) : YdlOpts :=
  if eff_remove_sponsor_segments item cfg then
    { opts with
        sponsorblock_mark := some ["sponsor", "intro", "outro", "interaction", "selfpromo"] }
  else opts

/-- Embeds `build_ydl_opts(item, cfg)` (app.py lines 36-114): the base dict followed
by each conditional write, in source order. -/
def build_ydl_opts (item cfg : Dict) : YdlOpts :=
  setSponsorblock item cfg
    (setRateLimit item cfg
      (setFormatSelection item cfg
        (setCookiefile (eff_cookies item cfg)
          (setFfmpegLocation (eff_ffmpeg_location item cfg)
            (setProxy (eff_proxy item cfg) (baseOpts item cfg))))))

/-- Embeds `download_item(item, cfg)` (app.py lines 116-124).  The external
`yt_dlp.YoutubeDL(...).download([url])` call is the parameter `fetch`,
receiving the resolved option set and the URL; any exception it raises is
an `Except.error` carrying the message.  `if not url: raise ValueError(...)`
rejects an absent or empty URL before any resolution. -/
def download_item (fetch : YdlOpts → String → Except String Unit)
    (item cfg : Dict) : Except String Unit :=
  match item.url with
  | none => .error "Every item must contain 'url'"
  | some u =>
    if u = "" then .error "Every item must contain 'url'"
    else fetch (build_ydl_opts item cfg) u

/-- Per-item result of the batch loop: the 1-based item index plus, on
failure, the caught exception message (app.py lines 143-151). -/
inductive JobOutcome where
  | success (index : Nat)
  | failure (index : Nat) (msg : String)
deriving Repr, DecidableEq

/-- How the batch loop in `main` ended: the loop ran off the end of `items`
(`return 0` after the loop), or `stop_on_error` made it `return 1` early. -/
inductive TerminalStatus where
  | completedAll
  | abortedEarly
deriving Repr, DecidableEq

/-- The observable result of the batch loop: one outcome per attempted item
in input order, the terminal status, and the exit code `main` returns. -/
structure BatchResult where
  outcomes : List JobOutcome
  status : TerminalStatus
  exitCode : Nat
deriving Repr, DecidableEq

/-- The loop body of `main` (app.py lines 143-154), from item `idx` on:
each iteration runs `download_item`; an exception is recorded as that item's
failure outcome and, when `cfg.get("stop_on_error", False)` is truthy, ends
the run with exit code 1; otherwise the loop continues.  Falling off the end
of the list is `return 0`. -/
def runBatchFrom (fetch : YdlOpts → String → Except String Unit) (cfg : Dict)
    (idx : Nat) : List Dict → BatchResult
  | [] => { outcomes := [], status := .completedAll, exitCode := 0 }
  | item :: rest =>
    match download_item fetch item cfg with
    | .ok _ =>
      let r := runBatchFrom fetch cfg (idx + 1) rest
      { r with outcomes := .success idx :: r.outcomes }
    | .error e =>
      if eff_stop_on_error cfg then
        { outcomes := [.failure idx e], status := .abortedEarly, exitCode := 1 }
      else
        let r := runBatchFrom fetch cfg (idx + 1) rest
        { r with outcomes := .failure idx e :: r.outcomes }

/-- The whole batch loop of `main`, starting at index 1
(`enumerate(items, 1)`). -/
def runBatch (fetch : YdlOpts → String → Except String Unit)
    (items : List Dict) (cfg : Dict) : BatchResult :=
  runBatchFrom fetch cfg 1 items

/-- One raw progress event dict pushed by the retrieval engine
(`_progress_hook`'s argument `d`); `none` = key absent/`None`. -/
structure ProgressEvent where
  status : Option String := none
  percent_str : Option String := none
  speed_str : Option String := none
  eta : Option Int := none
deriving Repr, DecidableEq

/-- Python `str.strip()`: drop leading and trailing whitespace, character by
character (the whitespace classes Python and `Char.isWhitespace` disagree on
do not occur in progress strings). -/
def pyStrip (s : String) : String :=
  String.mk (((s.data.dropWhile Char.isWhitespace).reverse.dropWhile Char.isWhitespace).reverse)

/-- Python `str(...)`/f-string rendering of the `eta` value, which is an
integer or `None`. -/
def etaStr : Option Int → String
  | some n => toString n
  | none => "None"

/-- Embeds `_progress_hook(d)` (app.py lines 27-34) as a pure translation: the log
line it emits, or `none` when the event status matches neither branch.
`d.get("_percent_str") or ""` / `d.get("_speed_str") or ""` degrade absent
fields to `""`, and `.strip()` is `String.trim`. -/
def progressHook (d : ProgressEvent) : Option String :=
  if d.status = some "downloading" then
    let p := pyOrD d.percent_str ""
    let s := pyOrD d.speed_str ""
    some ("downloading " ++ pyStrip p ++ " @ " ++ pyStrip s ++ " ETA " ++ etaStr d.eta ++ "s")
  else if d.status = some "finished" then
    some "download finished; post-processing..."
  else
    none

theorem setProxy_eq (p : Option String) (o : YdlOpts) :
    setProxy p o = { o with proxy := if strTruthy p then p else o.proxy } := by
  unfold setProxy; split_ifs <;> rfl

theorem setFfmpegLocation_eq (p : Option String) (o : YdlOpts) :
    setFfmpegLocation p o = { o with ffmpeg_location := if strTruthy p then p else o.ffmpeg_location } := by
  unfold setFfmpegLocation; split_ifs <;> rfl

theorem setCookiefile_eq (p : Option String) (o : YdlOpts) :
    setCookiefile p o = { o with cookiefile := if strTruthy p then p else o.cookiefile } := by
  unfold setCookiefile; split_ifs <;> rfl

theorem setRateLimit_eq (item cfg : Dict) (o : YdlOpts) :
    setRateLimit item cfg o =
      { o with ratelimit :=
          if cfg.rate_limit.isSome || item.rate_limit.isSome then eff_rate_limit item cfg
          else o.ratelimit } := by
  unfold setRateLimit; split_ifs <;> rfl

theorem setSponsorblock_eq (item cfg : Dict) (o : YdlOpts) :
    setSponsorblock item cfg o =
      { o with sponsorblock_mark :=
          if eff_remove_sponsor_segments item cfg then
            some ["sponsor", "intro", "outro", "interaction", "selfpromo"]
          else o.sponsorblock_mark } := by
  unfold setSponsorblock; split_ifs <;> rfl

theorem setFormatSelection_eq (item cfg : Dict) (o : YdlOpts) :
    setFormatSelection item cfg o =
      { o with
          format :=
            if requestedType item = "audio" then some "bestaudio/best"
            else if eff_quality item cfg = "best" then some "bv*+ba/b"
            else some (eff_quality item cfg)
          postprocessors :=
            if requestedType item = "audio" then [audioPP item cfg]
            else if eff_convert_to_audio item cfg then o.postprocessors ++ [audioPP item cfg]
            else o.postprocessors
          merge_output_format :=
            if requestedType item = "audio" then o.merge_output_format
            else some (eff_video_format item cfg) } := by
  unfold setFormatSelection; split_ifs <;> rfl

theorem build_ydl_opts_eq (item cfg : Dict) :
    build_ydl_opts item cfg =
      { outtmpl := eff_out_dir cfg ++ "/" ++ eff_filename_template item cfg
        noplaylist := true
        quiet := false
        retries := 10
        concurrent_fragment_downloads := eff_concurrent_fragments item cfg
        proxy := if strTruthy (eff_proxy item cfg) then eff_proxy item cfg else none
        ffmpeg_location :=
          if strTruthy (eff_ffmpeg_location item cfg) then eff_ffmpeg_location item cfg else none
        cookiefile := if strTruthy (eff_cookies item cfg) then eff_cookies item cfg else none
        format :=
          if requestedType item = "audio" then some "bestaudio/best"
          else if eff_quality item cfg = "best" then some "bv*+ba/b"
          else some (eff_quality item cfg)
        postprocessors :=
          if requestedType item = "audio" then [audioPP item cfg]
          else if eff_convert_to_audio item cfg then [audioPP item cfg]
          else []
        merge_output_format :=
          if requestedType item = "audio" then none else some (eff_video_format item cfg)
        ratelimit :=
          if cfg.rate_limit.isSome || item.rate_limit.isSome then eff_rate_limit item cfg
          else none
        sponsorblock_mark :=
          if eff_remove_sponsor_segments item cfg then
            some ["sponsor", "intro", "outro", "interaction", "selfpromo"]
          else none } := by
  rw [build_ydl_opts, setProxy_eq, setFfmpegLocation_eq, setCookiefile_eq,
    setFormatSelection_eq, setRateLimit_eq, setSponsorblock_eq]
  rfl

/-- C10: every resolved option set has `noplaylist = True` and a retry count
of 10, unconditionally in the item and global configuration: the base dict
sets both and no later write touches them. -/
theorem C10_fixed_engine_opts (item cfg : Dict) :
    (build_ydl_opts item cfg).noplaylist = true ∧ (build_ydl_opts item cfg).retries = 10 := by
  rw [build_ydl_opts_eq]; exact ⟨rfl, rfl⟩

/-- C8: when the effective `remove_sponsor_segments` flag is true the plan
carries exactly the category set
`["sponsor", "intro", "outro", "interaction", "selfpromo"]`, for every item
and global configuration; when it is false (in particular when the key is
absent everywhere) no category set is attached. -/
theorem C8_sponsor_categories (item cfg : Dict) :
    (eff_remove_sponsor_segments item cfg = true →
      (build_ydl_opts item cfg).sponsorblock_mark =
        some ["sponsor", "intro", "outro", "interaction", "selfpromo"]) ∧
    (eff_remove_sponsor_segments item cfg = false →
      (build_ydl_opts item cfg).sponsorblock_mark = none) := by
  rw [build_ydl_opts_eq]
  constructor <;> intro h <;> simp [h]

/-- Witness for C8 at concrete inputs: the flag set on the item (with other
unrelated options also set) attaches exactly the fixed category list; the
all-absent configuration attaches none. -/
theorem C8_sponsor_categories_witness :
    (build_ydl_opts
        { remove_sponsor_segments := some true, type_ := some "audio", proxy := some "p" }
        { }).sponsorblock_mark =
      some ["sponsor", "intro", "outro", "interaction", "selfpromo"] ∧
    (build_ydl_opts { } { }).sponsorblock_mark = none :=
  ⟨(C8_sponsor_categories
      { remove_sponsor_segments := some true, type_ := some "audio", proxy := some "p" }
      { }).1 rfl,
   (C8_sponsor_categories { } { }).2 rfl⟩

/-- C5: whenever the resolved media kind is `"audio"`, the plan's selector is
the fixed constant `"bestaudio/best"`, it carries exactly one postprocessor -
`FFmpegExtractAudio` with codec the effective audio format and quality the
effective audio bitrate coerced to a string - and no merge/container format
is set. -/
theorem C5_audio_plan (item cfg : Dict) (h : requestedType item = "audio") :
    (build_ydl_opts item cfg).format = some "bestaudio/best" ∧
    (build_ydl_opts item cfg).postprocessors =
      [{ key := "FFmpegExtractAudio"
         preferredcodec := eff_audio_format item cfg
         preferredquality := toString (eff_audio_bitrate item cfg) }] ∧
    (build_ydl_opts item cfg).merge_output_format = none := by
  rw [build_ydl_opts_eq]
  simp [h, audioPP, audio_bitrate_str]

/-- Witness for C5: an item requesting audio with everything else absent gets
the default codec `"mp3"` and the default bitrate `192` rendered as the
string `"192"`. -/
theorem C5_audio_plan_witness :
    (build_ydl_opts { type_ := some "audio" } { }).format = some "bestaudio/best" ∧
    (build_ydl_opts { type_ := some "audio" } { }).postprocessors =
      [{ key := "FFmpegExtractAudio", preferredcodec := "mp3", preferredquality := "192" }] ∧
    (build_ydl_opts { type_ := some "audio" } { }).merge_output_format = none := by
  have h := C5_audio_plan { type_ := some "audio" } { } (by decide)
  refine ⟨h.1, ?_, h.2.2⟩
  rw [h.2.1]; rfl

/-- C6: the resolved media kind is the item's `type` value lower-cased,
defaulting to `"video"` when the key is absent; any value whose lower-casing
is not `"audio"` takes the video path (merge/container format set, composite
or pass-through selector), with no error raised (the resolver is a total
function in this model, mirroring that the source raises nothing on
unrecognized kinds). -/
theorem C6_kind_fallback (item cfg : Dict) :
    (item.type_ = none → requestedType item = "video") ∧
    (∀ s : String, item.type_ = some s → s ≠ "" → requestedType item = pyLower s) ∧
    (requestedType item ≠ "audio" →
      (build_ydl_opts item cfg).merge_output_format = some (eff_video_format item cfg) ∧
      (build_ydl_opts item cfg).format =
        (if eff_quality item cfg = "best" then some "bv*+ba/b"
         else some (eff_quality item cfg))) := by
  refine ⟨?_, ?_, ?_⟩
  · intro h
    simp only [requestedType, pyOrD, h]
    decide
  · intro s hs hne
    simp [requestedType, pyOrD, hs, hne]
  · intro h
    rw [build_ydl_opts_eq]
    simp [h]

/-- Witness for C6: an absent type resolves to `"video"`; the unrecognized
value `"PlAyLiSt"` lower-cases to `"playlist"` and still takes the video
path, setting the default `"mp4"` container. -/
theorem C6_kind_fallback_witness :
    requestedType { } = "video" ∧
    requestedType { type_ := some "PlAyLiSt" } = "playlist" ∧
    (build_ydl_opts { type_ := some "PlAyLiSt" } { }).merge_output_format = some "mp4" := by
  refine ⟨(C6_kind_fallback { } { }).1 rfl, ?_, ?_⟩
  · have h := (C6_kind_fallback { type_ := some "PlAyLiSt" } { }).2.1 "PlAyLiSt" rfl (by decide)
    rw [h]; decide
  · have h := ((C6_kind_fallback { type_ := some "PlAyLiSt" } { }).2.2 (by decide)).1
    rw [h]; rfl

/-- C7: on the video path, the sentinel quality `"best"` resolves to the
composite selector `"bv*+ba/b"`, and any other effective quality value is
passed through verbatim as the plan's selector. -/
theorem C7_quality_passthrough (item cfg : Dict) (h : requestedType item ≠ "audio") :
    (eff_quality item cfg = "best" → (build_ydl_opts item cfg).format = some "bv*+ba/b") ∧
    (∀ q : String, eff_quality item cfg = q → q ≠ "best" →
      (build_ydl_opts item cfg).format = some q) := by
  rw [build_ydl_opts_eq]
  constructor
  · intro hq; simp [h, hq]
  · intro q hq hne; simp [h, hq, hne]

/-- Witness for C7: the advanced selector `"bestvideo+bestaudio"` given as
the quality value (not the sentinel `"best"`) is passed through verbatim;
the sentinel itself resolves to the composite selector. -/
theorem C7_quality_passthrough_witness :
    (build_ydl_opts { quality := some "bestvideo+bestaudio" } { }).format =
      some "bestvideo+bestaudio" ∧
    (build_ydl_opts { } { quality := some "best" }).format = some "bv*+ba/b" := by
  constructor
  · exact (C7_quality_passthrough { quality := some "bestvideo+bestaudio" } { } (by decide)).2
      "bestvideo+bestaudio" rfl (by decide)
  · exact (C7_quality_passthrough { } { quality := some "best" } (by decide)).1 rfl

/-- C3: with `stop_on_error` false or absent, a failing item is recorded and
the loop continues: for `[A(fails), B(succeeds)]` the result is the failure
outcome for A followed by the success outcome for B, terminal status
completed-all, exit code 0. -/
theorem C3_batch_continuation (fetch : YdlOpts → String → Except String Unit)
    (itemA itemB cfg : Dict) (e : String)
    (hso : eff_stop_on_error cfg = false)
    (hA : download_item fetch itemA cfg = .error e)
    (hB : download_item fetch itemB cfg = .ok ()) :
    runBatch fetch [itemA, itemB] cfg =
      { outcomes := [.failure 1 e, .success 2], status := .completedAll, exitCode := 0 } := by
  simp [runBatch, runBatchFrom, hA, hB, hso]

/-- Witness for C3: a retrieval stub failing exactly on the URL `"bad"`, a
batch of a failing then a succeeding item, and no `stop_on_error`. -/
theorem C3_batch_continuation_witness :
    runBatch (fun _ u => if u = "bad" then .error "boom" else .ok ())
        [{ url := some "bad" }, { url := some "good" }] { } =
      { outcomes := [.failure 1 "boom", .success 2], status := .completedAll, exitCode := 0 } :=
  C3_batch_continuation (fun _ u => if u = "bad" then .error "boom" else .ok ())
    { url := some "bad" } { url := some "good" } { } "boom" rfl rfl rfl

/-- C4: with `stop_on_error` true, the loop stops right after recording the
first failure: for `[A(fails), B]` the result holds exactly the failure
outcome for A, terminal status aborted-early, exit code 1 - whatever item B
is and however the retrieval collaborator would behave on it (B is never
attempted). -/
theorem C4_batch_abort (fetch : YdlOpts → String → Except String Unit)
    (itemA itemB cfg : Dict) (e : String)
    (hso : eff_stop_on_error cfg = true)
    (hA : download_item fetch itemA cfg = .error e) :
    runBatch fetch [itemA, itemB] cfg =
      { outcomes := [.failure 1 e], status := .abortedEarly, exitCode := 1 } := by
  simp [runBatch, runBatchFrom, hA, hso]

/-- Witness for C4: same failing stub, `stop_on_error = true`: one outcome,
aborted early, exit code 1, with a second (never attempted) item present. -/
theorem C4_batch_abort_witness :
    runBatch (fun _ u => if u = "bad" then .error "boom" else .ok ())
        [{ url := some "bad" }, { url := some "good" }] { stop_on_error := some true } =
      { outcomes := [.failure 1 "boom"], status := .abortedEarly, exitCode := 1 } :=
  C4_batch_abort (fun _ u => if u = "bad" then .error "boom" else .ok ())
    { url := some "bad" } { url := some "good" } { stop_on_error := some true } "boom" rfl rfl

/-- C2 as stated is false on the code: an item with no URL fails inside the
per-item try block of `main`, is recorded as that item's outcome, and the
batch continues and completes with exit code 0 - it does not abort the run. -/
theorem C2_counterexample :
    ({ } : Dict).url = none ∧
    runBatch (fun _ _ => .ok ()) [{ }, { url := some "https://example.com/v" }] { } =
      { outcomes := [.failure 1 "Every item must contain 'url'", .success 2],
        status := .completedAll, exitCode := 0 } :=
  ⟨rfl, rfl⟩

/-- C2 (amended): an item whose URL is absent or empty makes `download_item`
fail with the `InvalidSpec`-style `ValueError` message before any resolution,
and with `stop_on_error` false this failure is recorded as that item's
per-item outcome while the batch continues with the remaining items. -/
theorem C2_url_rejection_per_item (fetch : YdlOpts → String → Except String Unit)
    (item cfg : Dict) (rest : List Dict)
    (h : item.url = none ∨ item.url = some "") :
    download_item fetch item cfg = .error "Every item must contain 'url'" ∧
    (eff_stop_on_error cfg = false →
      runBatch fetch (item :: rest) cfg =
        { outcomes := .failure 1 "Every item must contain 'url'" ::
            (runBatchFrom fetch cfg 2 rest).outcomes
          status := (runBatchFrom fetch cfg 2 rest).status
          exitCode := (runBatchFrom fetch cfg 2 rest).exitCode }) := by
  have hd : download_item fetch item cfg = .error "Every item must contain 'url'" := by
    rcases h with h | h <;> simp [download_item, h]
  refine ⟨hd, fun hso => ?_⟩
  simp [runBatch, runBatchFrom, hd, hso]

/-- Witness for C2 (amended): an item with an empty URL, an always-succeeding
retrieval stub and an empty remainder: the error is produced and recorded,
and the batch completes with exit code 0. -/
theorem C2_url_rejection_per_item_witness :
    download_item (fun _ _ => .ok ()) { url := some "" } { } =
      .error "Every item must contain 'url'" ∧
    runBatch (fun _ _ => .ok ()) [{ url := some "" }] { } =
      { outcomes := [.failure 1 "Every item must contain 'url'"],
        status := .completedAll, exitCode := 0 } := by
  have h := C2_url_rejection_per_item (fun _ _ => .ok ()) { url := some "" } { } [] (Or.inr rfl)
  exact ⟨h.1, by rw [h.2 rfl]; rfl⟩


/-- C9 as stated is false on the code: a missing ETA field does not degrade
to an empty-string placeholder.  Line 31 reads `eta = d.get("eta")` with no
fallback and the f-string on line 32 renders the missing value as the
literal text `None`, so a bare `downloading` event yields
`"downloading  @  ETA Nones"` - not the line the empty-string placeholder
would give (`"downloading  @  ETA s"`). -/
theorem C9_counterexample :
    progressHook { status := some "downloading" } = some "downloading  @  ETA Nones" ∧
    progressHook { status := some "downloading" } ≠ some "downloading  @  ETA s" := by
  exact ⟨rfl, by decide⟩

/-- C9 (amended): the progress-event translation is a total pure function
(it cannot interrupt the fetch); absent percent and speed fields degrade to
the empty-string placeholder - an event with those fields missing translates
to exactly the same line as one carrying empty strings - while a missing ETA
is rendered as Python's `str(None)`, the literal text `None`, as the bare
`downloading` event line shows. -/
theorem C9_progress_translation :
    (∀ (st : Option String) (eta : Option Int),
      progressHook { status := st, percent_str := none, speed_str := none, eta := eta } =
        progressHook { status := st, percent_str := some "", speed_str := some "", eta := eta }) ∧
    progressHook { status := some "downloading" } = some "downloading  @  ETA Nones" := by
  constructor
  · intro st eta
    simp [progressHook, pyOrD]
  · rfl

theorem pyOr_truthy (s : String) (b : Option String) (h : s ≠ "") :
    pyOr (some s) b = some s := by
  simp [pyOr, strTruthy, h]

theorem pyOr_falsy (a b : Option String) (h : strTruthy a = false) : pyOr a b = b := by
  simp [pyOr, h]

theorem pyOrD_truthy (s : String) (d : String) (h : s ≠ "") : pyOrD (some s) d = s := by
  simp [pyOrD, h]

theorem pyOrD_falsy (a : Option String) (d : String) (h : strTruthy a = false) :
    pyOrD a d = d := by
  cases a with
  | none => rfl
  | some s => simp_all [strTruthy, pyOrD]

/-- C1 as stated is false on the code: for the `or`-merged fields an
empty-string item value is present (and non-null) yet does not win the
merge - with item `filename_template = ""` and global
`filename_template = "global.tmpl"` the merge yields `"global.tmpl"`. -/
theorem C1_counterexample :
    ¬ ∀ (item cfg : Dict) (s : String),
        item.filename_template = some s → eff_filename_template item cfg = s := by
  intro h
  have hc := h { filename_template := some "" } { filename_template := some "global.tmpl" } "" rfl
  exact absurd hc (by decide)

/-- C1 (amended): fields merged with `dict.get` (`video_format`, `quality`,
`audio_format`, `audio_bitrate`, `concurrent_fragments`, `convert_to_audio`,
`remove_sponsor_segments`, `rate_limit`, plus the single-scope `stop_on_error`
and `output_dir`) take the item's value whenever the key is present, else the
global value, else the builtin default of the §6 table.  Fields merged with a
Python `or`-chain (`filename_template`, `proxy`, `ffmpeg_location`,
`cookies`, `type`) take the item's value only when it is truthy (non-empty);
a falsy (absent or empty) value falls through to the global value and then to
the default. -/
theorem C1_merge_amended (item cfg : Dict) :
    (∀ v, item.video_format = some v → eff_video_format item cfg = v) ∧
    (item.video_format = none → ∀ v, cfg.video_format = some v →
      eff_video_format item cfg = v) ∧
    (item.video_format = none → cfg.video_format = none →
      eff_video_format item cfg = "mp4") ∧
    (∀ v, item.quality = some v → eff_quality item cfg = v) ∧
    (item.quality = none → ∀ v, cfg.quality = some v → eff_quality item cfg = v) ∧
    (item.quality = none → cfg.quality = none → eff_quality item cfg = "best") ∧
    (∀ v, item.audio_format = some v → eff_audio_format item cfg = v) ∧
    (item.audio_format = none → ∀ v, cfg.audio_format = some v →
      eff_audio_format item cfg = v) ∧
    (item.audio_format = none → cfg.audio_format = none →
      eff_audio_format item cfg = "mp3") ∧
    (∀ v, item.audio_bitrate = some v → eff_audio_bitrate item cfg = v) ∧
    (item.audio_bitrate = none → ∀ v, cfg.audio_bitrate = some v →
      eff_audio_bitrate item cfg = v) ∧
    (item.audio_bitrate = none → cfg.audio_bitrate = none →
      eff_audio_bitrate item cfg = 192) ∧
    (∀ v, item.concurrent_fragments = some v → eff_concurrent_fragments item cfg = v) ∧
    (item.concurrent_fragments = none → ∀ v, cfg.concurrent_fragments = some v →
      eff_concurrent_fragments item cfg = v) ∧
    (item.concurrent_fragments = none → cfg.concurrent_fragments = none →
      eff_concurrent_fragments item cfg = 5) ∧
    (∀ b, item.convert_to_audio = some b → eff_convert_to_audio item cfg = b) ∧
    (item.convert_to_audio = none → ∀ b, cfg.convert_to_audio = some b →
      eff_convert_to_audio item cfg = b) ∧
    (item.convert_to_audio = none → cfg.convert_to_audio = none →
      eff_convert_to_audio item cfg = false) ∧
    (∀ b, item.remove_sponsor_segments = some b →
      eff_remove_sponsor_segments item cfg = b) ∧
    (item.remove_sponsor_segments = none → ∀ b, cfg.remove_sponsor_segments = some b →
      eff_remove_sponsor_segments item cfg = b) ∧
    (item.remove_sponsor_segments = none → cfg.remove_sponsor_segments = none →
      eff_remove_sponsor_segments item cfg = false) ∧
    (∀ v, item.rate_limit = some v → eff_rate_limit item cfg = some v) ∧
    (item.rate_limit = none → eff_rate_limit item cfg = cfg.rate_limit) ∧
    (∀ b, cfg.stop_on_error = some b → eff_stop_on_error cfg = b) ∧
    (cfg.stop_on_error = none → eff_stop_on_error cfg = false) ∧
    (∀ s, cfg.output_dir = some s → eff_out_dir cfg = s) ∧
    (cfg.output_dir = none → eff_out_dir cfg = "downloads") ∧
    (∀ s, s ≠ "" → item.filename_template = some s →
      eff_filename_template item cfg = s) ∧
    (strTruthy item.filename_template = false → ∀ s, s ≠ "" →
      cfg.filename_template = some s → eff_filename_template item cfg = s) ∧
    (strTruthy item.filename_template = false → strTruthy cfg.filename_template = false →
      eff_filename_template item cfg = "%(title)s.%(ext)s") ∧
    (∀ s, s ≠ "" → item.proxy = some s → eff_proxy item cfg = some s) ∧
    (strTruthy item.proxy = false → eff_proxy item cfg = cfg.proxy) ∧
    (∀ s, s ≠ "" → item.ffmpeg_location = some s →
      eff_ffmpeg_location item cfg = some s) ∧
    (strTruthy item.ffmpeg_location = false →
      eff_ffmpeg_location item cfg = cfg.ffmpeg_location) ∧
    (∀ s, s ≠ "" → item.cookies = some s → eff_cookies item cfg = some s) ∧
    (strTruthy item.cookies = false → eff_cookies item cfg = cfg.cookies) ∧
    (∀ s, s ≠ "" → item.type_ = some s → requestedType item = pyLower s) ∧
    (strTruthy item.type_ = false → requestedType item = "video") := by
  repeat' apply And.intro
  all_goals intros
  all_goals
    simp_all [eff_video_format, eff_quality, eff_audio_format, eff_audio_bitrate,
      eff_concurrent_fragments, eff_convert_to_audio, eff_remove_sponsor_segments,
      eff_rate_limit, eff_stop_on_error, eff_out_dir, eff_filename_template, eff_proxy,
      eff_ffmpeg_location, eff_cookies, requestedType, pyOr_truthy, pyOr_falsy,
      pyOrD_truthy, pyOrD_falsy]
  all_goals decide

/-- Witness for C1 (amended) at concrete inputs: a present item value wins
(`video_format` `"webm"` over global `"mkv"`); with both scopes absent, every
field falls back to its documented builtin default. -/
theorem C1_merge_amended_witness :
    eff_video_format { video_format := some "webm" } { video_format := some "mkv" } = "webm" ∧
    eff_video_format { } { } = "mp4" ∧
    eff_quality { } { } = "best" ∧
    eff_audio_format { } { } = "mp3" ∧
    eff_audio_bitrate { } { } = 192 ∧
    eff_concurrent_fragments { } { } = 5 ∧
    eff_filename_template { } { } = "%(title)s.%(ext)s" := by
  obtain ⟨a1, a2, a3, a4, a5, a6, a7, a8, a9, a10, a11, a12, a13, a14, a15, a16, a17, a18,
    a19, a20, a21, a22, a23, a24, a25, a26, a27, a28, a29, a30, a31, a32, a33, a34, a35,
    a36, a37, a38⟩ := C1_merge_amended { } { }
  exact ⟨(C1_merge_amended { video_format := some "webm" } { video_format := some "mkv" }).1
      "webm" rfl,
    a3 rfl rfl, a6 rfl rfl, a9 rfl rfl, a12 rfl rfl, a15 rfl rfl, a30 rfl rfl⟩
